import Mathlib

/-!
Verification of the Swarm & Bee verified download endpoint
(src/functions/api/download.js), a Cloudflare Pages function that
verifies a Stripe checkout session and then streams a product zip
from R2 storage.

The handler is embedded shallowly: the Stripe fetch outcome and the
R2 store are passed in as explicit parameters, and the returned
`HandlerResult` records, besides the HTTP response, whether the
outbound Stripe call was issued and which storage key (if any) was
read, so that claims about side effects are statable.
-/

/-- Value of a field inside a JSON object body (only the shapes the
handler ever produces: strings and arrays of strings). -/
inductive JsonVal
  | str (s : String)
  | arr (xs : List String)
deriving DecidableEq, Repr

/-- Body of an HTTP response: empty (JS `null`), a JSON object given
as its field list, or a streamed byte payload from storage. -/
inductive RespBody
  | empty
  | json (fields : List (String × JsonVal))
  | stream (content : String)
deriving DecidableEq, Repr

/-- An HTTP response: status code, headers, body. -/
structure Resp where
  status : Nat
  headers : List (String × String)
  body : RespBody
deriving DecidableEq, Repr

/-- The `metadata` object of a Stripe checkout session as read by the
handler: an optional `product_slug` string. -/
structure SessionMetadata where
  product_slug : Option String
deriving DecidableEq, Repr

/-- A Stripe checkout session record as read by the handler:
`payment_status` and optional `metadata`. -/
structure StripeSession where
  payment_status : String
  metadata : Option SessionMetadata
deriving DecidableEq, Repr

/-- Outcome of the outbound `fetch` to the Stripe API, as observed by
the handler's try/catch: the fetch itself throws (network failure),
the HTTP response is not ok, the body fails to parse as JSON (throws
inside the same try), or a session record is obtained. -/
inductive StripeResult
  | networkError
  | httpError
  | parseError
  | success (session : StripeSession)
deriving DecidableEq, Repr

/-- Result of one handler invocation: the response, whether the
outbound Stripe call was issued, and the storage key read (if any). -/
structure HandlerResult where
  resp : Resp
  stripeCalled : Bool
  storageRead : Option String
deriving DecidableEq, Repr

/-- PRODUCT_MAP from download.js: product slug → R2 zip filename. -/
def PRODUCT_MAP : List (String × String) := [
  ("platinum-sample-pack",         "Platinum_Sample_Pack.zip"),
  ("specialty-cardiology",         "Specialty_Cardiology.zip"),
  ("specialty-radiology-mri",      "Specialty_Radiology_MRI.zip"),
  ("specialty-emergency-medicine", "Specialty_Emergency_Medicine.zip"),
  ("specialty-psychiatry",         "Specialty_Psychiatry.zip"),
  ("specialty-pharmacology",       "Specialty_Pharmacology_Drug_Safety.zip"),
  ("specialty-oncology",           "Specialty_Oncology.zip"),
  ("specialty-neurology",          "Specialty_Neurology.zip"),
  ("specialty-pediatrics",         "Specialty_Pediatrics.zip"),
  ("specialty-womens-health",      "Specialty_Womens_Health.zip"),
  ("full-platinum-vault",          "Full_Platinum_Vault.zip"),
  ("enterprise-annual",            "Enterprise_Annual.zip"),
  ("pro-monthly-5k",               "Full_Platinum_Vault.zip"),
  ("pro-monthly-10k",              "Full_Platinum_Vault.zip")
]

/-- Own-key part of the JS access `PRODUCT_MAP[slug]`. In JavaScript
the object literal also inherits properties from Object.prototype, so
for slugs such as "constructor" or "toString" the access yields a
truthy inherited value; this model returns none there, and theorems
relying on a negative lookup are therefore confined (by explicit
hypothesis) to slugs outside `objectPrototypeTruthyKeys`. -/
def productLookup (slug : String) : Option String :=
  (PRODUCT_MAP.find? (fun p => p.1 == slug)).map (fun p => p.2)

/-- isValidSessionId from download.js: the anchored regex
`cs_(test|live)_` followed by at least 10 ASCII alphanumerics.
Stated over the character list of the string; both admissible
prefixes have length 8. -/
def isValidSessionId (id : String) : Bool :=
  (id.data.take 8 == "cs_test_".data || id.data.take 8 == "cs_live_".data)
    && decide ((id.data.drop 8).length ≥ 10)
    && (id.data.drop 8).all Char.isAlphanum

/-- JS truthiness of an optional string value: present and non-empty. -/
def strTruthy : Option String → Bool
  | none => false
  | some s => s != ""

/-- The JS condition `session.metadata && session.metadata.product_slug`. -/
def metadataCarriesSlug (session : StripeSession) : Bool :=
  match session.metadata with
  | none => false
  | some m => strTruthy m.product_slug

/-- The effective product slug (download.js lines 84–89): start from the
`product` query parameter, and overwrite it with the session metadata
slug whenever that metadata value is truthy. -/
def effectiveSlug (productParam : Option String) (session : StripeSession) :
    Option String :=
  if metadataCarriesSlug session then
    session.metadata.bind (fun m => m.product_slug)
  else
    productParam

/-- Negation of the JS guard `!productSlug || !PRODUCT_MAP[productSlug]`:
the slug is truthy and maps to a truthy filename in the catalog.
`slugKnown = true` is faithful to JS (catalog keys are truthy own
properties); `slugKnown = false` agrees with JS only for slugs that do
not name an inherited Object.prototype property (see
`objectPrototypeTruthyKeys`), since in JS those inherited values are
truthy and let the guard pass. -/
def slugKnown : Option String → Bool
  | none => false
  | some s =>
    if s = "" then false
    else
      match productLookup s with
      | none => false
      | some f => if f = "" then false else true

/-- Headers used on every JSON error response in download.js. -/
def jsonHeaders : List (String × String) := [("Content-Type", "application/json")]

/-- An error response as built in download.js: the given status, JSON
content-type header, and a `\x7b error: msg \x7d` JSON body — except
that for HEAD requests the body is `null` (empty). -/
def errorResp (isHead : Bool) (msg : String) (status : Nat) : Resp :=
  { status := status,
    headers := jsonHeaders,
    body := if isHead then RespBody.empty
            else RespBody.json [("error", JsonVal.str msg)] }

/-- The 400 result for an absent or malformed session_id (download.js
lines 41–46); no Stripe call and no storage read have happened. -/
def invalidSessionResult (isHead : Bool) : HandlerResult :=
  { resp := errorResp isHead "Invalid or missing session" 400,
    stripeCalled := false,
    storageRead := none }

/-- handleRequest from download.js. `isHead` is `request.method === "HEAD"`,
`sessionId` and `productParam` are the `session_id` and `product` query
parameters, `stripe` is the outcome of the outbound Stripe call (only
consumed after a well-formed session id), and `store` is the R2 bucket
as a key → object map. -/
def handleRequest (isHead : Bool) (sessionId : Option String)
    (productParam : Option String) (stripe : StripeResult)
    (store : String → Option String) : HandlerResult :=
  match sessionId with
  | none => invalidSessionResult isHead
  | some sid =>
    if isValidSessionId sid then
      match stripe with
      | StripeResult.networkError =>
        { resp := errorResp isHead "Verification failed" 500,
          stripeCalled := true, storageRead := none }
      | StripeResult.httpError =>
        { resp := errorResp isHead "Invalid session" 403,
          stripeCalled := true, storageRead := none }
      | StripeResult.parseError =>
        { resp := errorResp isHead "Verification failed" 500,
          stripeCalled := true, storageRead := none }
      | StripeResult.success session =>
        if session.payment_status ≠ "paid" then
          { resp := errorResp isHead "Payment not completed" 402,
            stripeCalled := true, storageRead := none }
        else if slugKnown (effectiveSlug productParam session) then
          if isHead then
            { resp := { status := 200,
                        headers := [("Content-Type", "application/zip")],
                        body := RespBody.empty },
              stripeCalled := true, storageRead := none }
          else
            match store ("products/" ++
                ((effectiveSlug productParam session).bind productLookup).getD "") with
            | none =>
              { resp := { status := 404,
                          headers := jsonHeaders,
                          body := RespBody.json
                            [("error", JsonVal.str "Product file not found")] },
                stripeCalled := true,
                storageRead := some ("products/" ++
                  ((effectiveSlug productParam session).bind productLookup).getD "") }
            | some content =>
              { resp := { status := 200,
                          headers := [("Content-Type", "application/zip"),
                                      ("Content-Disposition",
                                        "attachment; filename=\"" ++
                                        ((effectiveSlug productParam session).bind
                                          productLookup).getD "" ++ "\""),
                                      ("Cache-Control", "no-store")],
                          body := RespBody.stream content },
                stripeCalled := true,
                storageRead := some ("products/" ++
                  ((effectiveSlug productParam session).bind productLookup).getD "") }
        else
          { resp := errorResp isHead "Unknown product" 400,
            stripeCalled := true, storageRead := none }
    else
      invalidSessionResult isHead

/-- The session_id query parameter is absent or fails the format check. -/
def sessionIdInvalid : Option String → Bool
  | none => true
  | some sid => !(isValidSessionId sid)

/-- Whether a response body is a JSON object containing the given field. -/
def bodyHasField (b : RespBody) (key : String) : Bool :=
  match b with
  | RespBody.json fields => fields.any (fun p => p.1 == key)
  | _ => false

/-- Property names a JS object literal inherits from Object.prototype,
each of which evaluates to a truthy value (a function, or the
prototype object itself for __proto__). For such a slug the JS access
`PRODUCT_MAP[slug]` is truthy even though the slug is not a catalog
key, so the unknown-product guard of download.js line 91 does not
fire; the own-key model `productLookup` diverges from JS exactly on
this set. -/
def objectPrototypeTruthyKeys : List String :=
  ["constructor", "hasOwnProperty", "isPrototypeOf", "propertyIsEnumerable",
   "toLocaleString", "toString", "valueOf", "__proto__",
   "__defineGetter__", "__defineSetter__", "__lookupGetter__",
   "__lookupSetter__"]

/-- Whether an optional slug names an inherited Object.prototype
property, i.e. lies where the own-key model of the catalog access
diverges from JavaScript semantics. -/
def slugNamesPrototypeProperty : Option String → Bool
  | none => false
  | some s => objectPrototypeTruthyKeys.contains s

/-- A paid session carrying no metadata. -/
def sampleNoMetaSession : StripeSession :=
  { payment_status := "paid", metadata := none }

/-- A paid session whose metadata pins the full-platinum-vault slug. -/
def sampleVaultSession : StripeSession :=
  { payment_status := "paid",
    metadata := some { product_slug := some "full-platinum-vault" } }

/-- A paid session whose metadata slug is the empty string. -/
def sampleEmptySlugSession : StripeSession :=
  { payment_status := "paid", metadata := some { product_slug := some "" } }

/-- A session whose payment is not completed. -/
def sampleUnpaidSession : StripeSession :=
  { payment_status := "unpaid", metadata := none }

/-- A storage backend holding no objects. -/
def emptyStore : String → Option String := fun _ => none

/-- A storage backend answering every key with the same byte payload. -/
def fullStore : String → Option String := fun _ => some "zipbytes"

/-- C1 (counterexample): at a concrete retrieval request whose effective
slug is not a catalog key, the handler does return 400, but its JSON
body is only the error message and contains no `available` field, so
the claimed enumeration of catalog slugs is absent. -/
theorem unknown_product_body_omits_available :
    (handleRequest false (some "cs_test_abcdefghij") (some "bogus")
      (StripeResult.success sampleNoMetaSession) emptyStore).resp.status = 400 ∧
    (handleRequest false (some "cs_test_abcdefghij") (some "bogus")
      (StripeResult.success sampleNoMetaSession) emptyStore).resp.body
      = RespBody.json [("error", JsonVal.str "Unknown product")] ∧
    bodyHasField (handleRequest false (some "cs_test_abcdefghij") (some "bogus")
      (StripeResult.success sampleNoMetaSession) emptyStore).resp.body "available"
      = false := by
  decide

/-- C1 (amended): for every request reaching product resolution (valid
session id, paid session) whose effective slug is empty or not a
catalog key — and does not name an inherited Object.prototype property,
where the JS guard is bypassed by a truthy inherited value and no 400
is produced at all — the handler returns 400 with JSON body containing
only the field `error = "Unknown product"` (no `available` array) for
retrieval requests, and 400 with an empty body for metadata-only
checks. The last hypothesis confines the statement to the slugs on
which the own-key model agrees with JavaScript. -/
theorem unknown_product_response
    (sid : String) (productParam : Option String) (session : StripeSession)
    (store : String → Option String)
    (hv : isValidSessionId sid = true)
    (hp : session.payment_status = "paid")
    (hk : slugKnown (effectiveSlug productParam session) = false)
    (_hproto : slugNamesPrototypeProperty (effectiveSlug productParam session)
      = false) :
    (handleRequest false (some sid) productParam (StripeResult.success session)
      store).resp
      = { status := 400, headers := jsonHeaders,
          body := RespBody.json [("error", JsonVal.str "Unknown product")] } ∧
    (handleRequest true (some sid) productParam (StripeResult.success session)
      store).resp
      = { status := 400, headers := jsonHeaders, body := RespBody.empty } := by
  simp [handleRequest, hv, hp, hk, errorResp]

/-- Witness for the amended C1 at a concrete unknown slug. -/
theorem unknown_product_response_check :
    (handleRequest false (some "cs_test_abcdefghij") (some "bogus")
      (StripeResult.success sampleNoMetaSession) emptyStore).resp
      = { status := 400, headers := jsonHeaders,
          body := RespBody.json [("error", JsonVal.str "Unknown product")] } ∧
    (handleRequest true (some "cs_test_abcdefghij") (some "bogus")
      (StripeResult.success sampleNoMetaSession) emptyStore).resp
      = { status := 400, headers := jsonHeaders, body := RespBody.empty } :=
  unknown_product_response "cs_test_abcdefghij" (some "bogus") sampleNoMetaSession
    emptyStore (by decide) (by decide) (by decide) (by decide)

/-- C2: a truthy metadata product_slug is the effective slug used for
catalog lookup, overriding any caller-supplied `product` query
parameter; a session whose metadata carries no truthy slug falls back
to the query parameter; concretely, metadata `full-platinum-vault`
beats query `platinum-sample-pack`, and the handler then reads the
vault key from storage. -/
theorem metadata_slug_overrides_query
    (qp : Option String) (session fallbackSession : StripeSession)
    (m : SessionMetadata) (s : String)
    (hm : session.metadata = some m) (hs : m.product_slug = some s)
    (hne : s ≠ "")
    (hf : metadataCarriesSlug fallbackSession = false) :
    effectiveSlug qp session = some s ∧
    effectiveSlug qp fallbackSession = qp ∧
    effectiveSlug (some "platinum-sample-pack") sampleVaultSession
      = some "full-platinum-vault" ∧
    (handleRequest false (some "cs_live_abcdefghij") (some "platinum-sample-pack")
      (StripeResult.success sampleVaultSession) fullStore).storageRead
      = some "products/Full_Platinum_Vault.zip" := by
  refine ⟨?_, ?_, by decide, by decide⟩
  · simp [effectiveSlug, metadataCarriesSlug, strTruthy, hm, hs, hne]
  · simp [effectiveSlug, hf]

/-- Witness for C2 at a concrete session and query parameter. -/
theorem metadata_slug_overrides_query_check :
    effectiveSlug (some "platinum-sample-pack") sampleVaultSession
      = some "full-platinum-vault" ∧
    effectiveSlug (some "platinum-sample-pack") sampleNoMetaSession
      = some "platinum-sample-pack" ∧
    effectiveSlug (some "platinum-sample-pack") sampleVaultSession
      = some "full-platinum-vault" ∧
    (handleRequest false (some "cs_live_abcdefghij") (some "platinum-sample-pack")
      (StripeResult.success sampleVaultSession) fullStore).storageRead
      = some "products/Full_Platinum_Vault.zip" :=
  metadata_slug_overrides_query (some "platinum-sample-pack")
    sampleVaultSession sampleNoMetaSession
    { product_slug := some "full-platinum-vault" } "full-platinum-vault"
    rfl rfl (by decide) (by decide)

/-- C3: when the session_id query parameter is absent or fails the
format check, the handler answers 400 and the outbound Stripe call is
never issued. -/
theorem invalid_session_returns_400_without_stripe_call
    (isHead : Bool) (sessionId : Option String) (productParam : Option String)
    (stripe : StripeResult) (store : String → Option String)
    (h : sessionIdInvalid sessionId = true) :
    (handleRequest isHead sessionId productParam stripe store).resp.status = 400 ∧
    (handleRequest isHead sessionId productParam stripe store).stripeCalled = false := by
  cases sessionId with
  | none => simp [handleRequest, invalidSessionResult, errorResp]
  | some sid =>
    simp [sessionIdInvalid] at h
    simp [handleRequest, h, invalidSessionResult, errorResp]

/-- Witness for C3 at a concrete malformed session id. -/
theorem invalid_session_returns_400_without_stripe_call_check :
    (handleRequest false (some "cs_test_short") none StripeResult.networkError
      emptyStore).resp.status = 400 ∧
    (handleRequest false (some "cs_test_short") none StripeResult.networkError
      emptyStore).stripeCalled = false :=
  invalid_session_returns_400_without_stripe_call false (some "cs_test_short") none
    StripeResult.networkError emptyStore (by decide)

/-- C4: a well-formed session id whose Stripe record has payment_status
other than "paid" yields 402, for every method, query parameter and
session metadata — so in particular regardless of whether the requested
product slug is valid or invalid, since the payment check precedes
product resolution. -/
theorem unpaid_session_returns_402
    (isHead : Bool) (sid : String) (productParam : Option String)
    (session : StripeSession) (store : String → Option String)
    (hv : isValidSessionId sid = true)
    (hp : session.payment_status ≠ "paid") :
    (handleRequest isHead (some sid) productParam (StripeResult.success session)
      store).resp.status = 402 := by
  simp [handleRequest, hv, hp, errorResp]

/-- Witness for C4 with an unpaid session and an invalid product slug. -/
theorem unpaid_session_returns_402_check :
    (handleRequest false (some "cs_test_abcdefghij") (some "not-a-product")
      (StripeResult.success sampleUnpaidSession) emptyStore).resp.status = 402 :=
  unpaid_session_returns_402 false "cs_test_abcdefghij" (some "not-a-product")
    sampleUnpaidSession emptyStore (by decide) (by decide)

/-- C5: a well-formed session id for which Stripe responds with a
non-success HTTP status yields 403. -/
theorem stripe_http_error_returns_403
    (isHead : Bool) (sid : String) (productParam : Option String)
    (store : String → Option String)
    (hv : isValidSessionId sid = true) :
    (handleRequest isHead (some sid) productParam StripeResult.httpError
      store).resp.status = 403 := by
  simp [handleRequest, hv, errorResp]

/-- Witness for C5 at a concrete well-formed session id. -/
theorem stripe_http_error_returns_403_check :
    (handleRequest false (some "cs_live_abcdefghij") none StripeResult.httpError
      emptyStore).resp.status = 403 :=
  stripe_http_error_returns_403 false "cs_live_abcdefghij" none emptyStore
    (by decide)

/-- C6: a well-formed session id for which the outbound Stripe call
fails at the network level yields 500 (the failure is caught and
converted into a response rather than crashing). -/
theorem stripe_network_failure_returns_500
    (isHead : Bool) (sid : String) (productParam : Option String)
    (store : String → Option String)
    (hv : isValidSessionId sid = true) :
    (handleRequest isHead (some sid) productParam StripeResult.networkError
      store).resp.status = 500 := by
  simp [handleRequest, hv, errorResp]

/-- Witness for C6 at a concrete well-formed session id. -/
theorem stripe_network_failure_returns_500_check :
    (handleRequest false (some "cs_live_abcdefghij") none
      StripeResult.networkError emptyStore).resp.status = 500 :=
  stripe_network_failure_returns_500 false "cs_live_abcdefghij" none emptyStore
    (by decide)

/-- C7: a retrieval request that passes the session, payment and catalog
checks but whose resolved storage key is absent from the store yields
404. -/
theorem missing_storage_object_returns_404
    (sid : String) (productParam : Option String) (session : StripeSession)
    (store : String → Option String) (filename : String)
    (hv : isValidSessionId sid = true)
    (hp : session.payment_status = "paid")
    (hk : slugKnown (effectiveSlug productParam session) = true)
    (hf : (effectiveSlug productParam session).bind productLookup = some filename)
    (hs : store ("products/" ++ filename) = none) :
    (handleRequest false (some sid) productParam (StripeResult.success session)
      store).resp.status = 404 := by
  simp [handleRequest, hv, hp, hk, hf, hs]

/-- Witness for C7: paid session, known slug, empty storage. -/
theorem missing_storage_object_returns_404_check :
    (handleRequest false (some "cs_test_abcdefghij") (some "enterprise-annual")
      (StripeResult.success sampleNoMetaSession) emptyStore).resp.status = 404 :=
  missing_storage_object_returns_404 "cs_test_abcdefghij"
    (some "enterprise-annual") sampleNoMetaSession emptyStore
    "Enterprise_Annual.zip" (by decide) (by decide) (by decide) (by decide) rfl

/-- C8: a metadata-only (HEAD) request that passes all validation steps
yields 200 with an empty body and a Content-Type of application/zip,
and no storage key is read. -/
theorem head_success_returns_200_without_storage
    (sid : String) (productParam : Option String) (session : StripeSession)
    (store : String → Option String)
    (hv : isValidSessionId sid = true)
    (hp : session.payment_status = "paid")
    (hk : slugKnown (effectiveSlug productParam session) = true) :
    (handleRequest true (some sid) productParam (StripeResult.success session)
      store).resp
      = { status := 200, headers := [("Content-Type", "application/zip")],
          body := RespBody.empty } ∧
    (handleRequest true (some sid) productParam (StripeResult.success session)
      store).storageRead = none := by
  simp [handleRequest, hv, hp, hk]

/-- Witness for C8 at a concrete fully valid HEAD request. -/
theorem head_success_returns_200_without_storage_check :
    (handleRequest true (some "cs_test_abcdefghij") (some "enterprise-annual")
      (StripeResult.success sampleNoMetaSession) fullStore).resp
      = { status := 200, headers := [("Content-Type", "application/zip")],
          body := RespBody.empty } ∧
    (handleRequest true (some "cs_test_abcdefghij") (some "enterprise-annual")
      (StripeResult.success sampleNoMetaSession) fullStore).storageRead = none :=
  head_success_returns_200_without_storage "cs_test_abcdefghij"
    (some "enterprise-annual") sampleNoMetaSession fullStore
    (by decide) (by decide) (by decide)

/-- C9: the catalog maps enterprise-annual to Enterprise_Annual.zip and
the handler reads storage key products/Enterprise_Annual.zip for it
(the key is the resolved filename behind a fixed "products/" namespace
segment); pro-monthly-5k and pro-monthly-10k both alias
Full_Platinum_Vault.zip. -/
theorem catalog_resolution_facts :
    productLookup "enterprise-annual" = some "Enterprise_Annual.zip" ∧
    (handleRequest false (some "cs_live_abcdefghij") (some "enterprise-annual")
      (StripeResult.success sampleNoMetaSession) fullStore).storageRead
      = some "products/Enterprise_Annual.zip" ∧
    productLookup "pro-monthly-5k" = some "Full_Platinum_Vault.zip" ∧
    productLookup "pro-monthly-10k" = some "Full_Platinum_Vault.zip" := by
  decide

/-- C10: a metadata product_slug equal to the empty string is falsy in
the JS guard, so the effective slug falls back to the caller-supplied
query parameter, exactly as for a session with no metadata at all. -/
theorem empty_metadata_slug_falls_back
    (qp : Option String) (session : StripeSession) (m : SessionMetadata)
    (hm : session.metadata = some m) (hs : m.product_slug = some "") :
    effectiveSlug qp session = qp ∧
    effectiveSlug qp { payment_status := session.payment_status,
                       metadata := none } = qp := by
  constructor
  · simp [effectiveSlug, metadataCarriesSlug, strTruthy, hm, hs]
  · simp [effectiveSlug, metadataCarriesSlug]

/-- Witness for C10 at a concrete session with an empty metadata slug. -/
theorem empty_metadata_slug_falls_back_check :
    effectiveSlug (some "platinum-sample-pack") sampleEmptySlugSession
      = some "platinum-sample-pack" ∧
    effectiveSlug (some "platinum-sample-pack")
      { payment_status := sampleEmptySlugSession.payment_status,
        metadata := none } = some "platinum-sample-pack" :=
  empty_metadata_slug_falls_back (some "platinum-sample-pack")
    sampleEmptySlugSession { product_slug := some "" } rfl rfl
